import Mathlib

/-!
Verification of `crates/bevy_sprite/src/mesh2d/mesh.rs` (the 2d mesh
render pipeline bridge): the bit-packed `Mesh2dPipelineKey`, the pipeline
specialization, the extraction system `extract_mesh2d`, the optional
texture resolution `get_image_texture`, and the `DrawMesh2d` render
command.  Machine integers (`u32`) are modelled as `Nat` with explicit
wrapping modulo `2^32` where the source can overflow.
-/

/-- Width constant for `u32` arithmetic. -/
def U32_SIZE : Nat := 4294967296

/-- Wrapping `u32` subtraction, as compiled Rust release arithmetic performs
for `msaa_samples - 1`. -/
def u32_wrapping_sub (a b : Nat) : Nat :=
  (a % U32_SIZE + U32_SIZE - b % U32_SIZE) % U32_SIZE

/-- The external `wgpu::PrimitiveTopology`: the 5-value primitive topology enum consumed by
the pipeline key.  Ordinals follow the declaration order of the external
`wgpu` enum (`PointList = 0` through `TriangleStrip = 4`). -/
inductive PrimitiveTopology
  | PointList
  | LineList
  | LineStrip
  | TriangleList
  | TriangleStrip
deriving DecidableEq, Repr, Fintype

/-- The `as u32` cast of a `PrimitiveTopology` value (its declaration ordinal). -/
def PrimitiveTopology.toU32 : PrimitiveTopology → Nat
  | .PointList => 0
  | .LineList => 1
  | .LineStrip => 2
  | .TriangleList => 3
  | .TriangleStrip => 4

/-- The value of `PrimitiveTopology::default()` of the external `wgpu` enum, the fallback
used by `Mesh2dPipelineKey::primitive_topology`. -/
def PrimitiveTopology.default : PrimitiveTopology := .TriangleList

/-- The `bitflags!`-generated `Mesh2dPipelineKey` struct: a transparent wrapper around
a `u32` bit set.  `bits` is kept as a `Nat`; every key built by the source
constructors has `bits < 2^32`. -/
structure Mesh2dPipelineKey where
  bits : Nat
deriving DecidableEq, Repr

namespace Mesh2dPipelineKey

/-- Flag `Mesh2dPipelineKey::NONE = 0`. -/
def NONE : Mesh2dPipelineKey := ⟨0⟩

/-- Flag `Mesh2dPipelineKey::VERTEX_TANGENTS = 1 << 0`. -/
def VERTEX_TANGENTS : Mesh2dPipelineKey := ⟨1 <<< 0⟩

/-- Constant `MSAA_MASK_BITS = 0b111111`. -/
def MSAA_MASK_BITS : Nat := 63

/-- Constant `MSAA_SHIFT_BITS = 32 - 6`. -/
def MSAA_SHIFT_BITS : Nat := 32 - 6

/-- Constant `PRIMITIVE_TOPOLOGY_MASK_BITS = 0b111`. -/
def PRIMITIVE_TOPOLOGY_MASK_BITS : Nat := 7

/-- Constant `PRIMITIVE_TOPOLOGY_SHIFT_BITS = MSAA_SHIFT_BITS - 3`. -/
def PRIMITIVE_TOPOLOGY_SHIFT_BITS : Nat := MSAA_SHIFT_BITS - 3

/-- Flag `Mesh2dPipelineKey::MSAA_RESERVED_BITS`. -/
def MSAA_RESERVED_BITS : Mesh2dPipelineKey :=
  ⟨MSAA_MASK_BITS <<< MSAA_SHIFT_BITS⟩

/-- Flag `Mesh2dPipelineKey::PRIMITIVE_TOPOLOGY_RESERVED_BITS`. -/
def PRIMITIVE_TOPOLOGY_RESERVED_BITS : Mesh2dPipelineKey :=
  ⟨PRIMITIVE_TOPOLOGY_MASK_BITS <<< PRIMITIVE_TOPOLOGY_SHIFT_BITS⟩

/-- The value `Mesh2dPipelineKey::all().bits`: the union of all flags declared in the
`bitflags!` block. -/
def ALL_BITS : Nat :=
  NONE.bits ||| VERTEX_TANGENTS.bits |||
    MSAA_RESERVED_BITS.bits ||| PRIMITIVE_TOPOLOGY_RESERVED_BITS.bits

/-- The `bitflags` method `from_bits`: `Some` exactly when no bit outside the declared
flags is set (`bits & !Self::all().bits == 0` over `u32`). -/
def from_bits (bits : Nat) : Option Mesh2dPipelineKey :=
  if bits &&& ((U32_SIZE - 1) ^^^ ALL_BITS) = 0 then some ⟨bits⟩ else none

/-- The `bitflags` method `contains`: `self.bits & other.bits == other.bits`, as a
decidable `Bool`. -/
def containsb (self other : Mesh2dPipelineKey) : Bool :=
  self.bits &&& other.bits = other.bits

/-- The `bitflags` union operator on keys. -/
def union (a b : Mesh2dPipelineKey) : Mesh2dPipelineKey :=
  ⟨a.bits ||| b.bits⟩

/-- Method `Mesh2dPipelineKey::from_msaa_samples`.  The source computes
`((msaa_samples - 1) & MSAA_MASK_BITS) << MSAA_SHIFT_BITS` (wrapping `u32`
subtraction) and then `from_bits(..).unwrap()`; the `unwrap` is modelled by
`Option` (`none` = panic). -/
def from_msaa_samples (msaa_samples : Nat) : Option Mesh2dPipelineKey :=
  let msaa_bits := (u32_wrapping_sub msaa_samples 1 &&& MSAA_MASK_BITS) <<< MSAA_SHIFT_BITS
  from_bits msaa_bits

/-- Method `Mesh2dPipelineKey::msaa_samples`:
`((self.bits >> MSAA_SHIFT_BITS) & MSAA_MASK_BITS) + 1`. -/
def msaa_samples (self : Mesh2dPipelineKey) : Nat :=
  ((self.bits >>> MSAA_SHIFT_BITS) &&& MSAA_MASK_BITS) + 1

/-- Method `Mesh2dPipelineKey::from_primitive_topology`:
`((primitive_topology as u32) & PRIMITIVE_TOPOLOGY_MASK_BITS) << PRIMITIVE_TOPOLOGY_SHIFT_BITS`,
then `from_bits(..).unwrap()` modelled by `Option`. -/
def from_primitive_topology (primitive_topology : PrimitiveTopology) :
    Option Mesh2dPipelineKey :=
  let primitive_topology_bits :=
    (primitive_topology.toU32 &&& PRIMITIVE_TOPOLOGY_MASK_BITS) <<<
      PRIMITIVE_TOPOLOGY_SHIFT_BITS
  from_bits primitive_topology_bits

/-- Method `Mesh2dPipelineKey::primitive_topology`: extracts the 3-bit field and
matches it against each variant's ordinal in declaration order, falling back
to `PrimitiveTopology::default()`. -/
def primitive_topology (self : Mesh2dPipelineKey) : PrimitiveTopology :=
  let primitive_topology_bits :=
    (self.bits >>> PRIMITIVE_TOPOLOGY_SHIFT_BITS) &&& PRIMITIVE_TOPOLOGY_MASK_BITS
  if primitive_topology_bits = PrimitiveTopology.PointList.toU32 then .PointList
  else if primitive_topology_bits = PrimitiveTopology.LineList.toU32 then .LineList
  else if primitive_topology_bits = PrimitiveTopology.LineStrip.toU32 then .LineStrip
  else if primitive_topology_bits = PrimitiveTopology.TriangleList.toU32 then .TriangleList
  else if primitive_topology_bits = PrimitiveTopology.TriangleStrip.toU32 then .TriangleStrip
  else PrimitiveTopology.default

end Mesh2dPipelineKey

/-- The composite encoding used by the pipeline's callers (the claim's
`encode`): the `VERTEX_TANGENTS` flag (when the attribute flag is 1) unioned
with `from_msaa_samples` and `from_primitive_topology`; `none` when either
constructor would panic. -/
def encodeKey (attributeFlag sampleCount : Nat) (topology : PrimitiveTopology) :
    Option Mesh2dPipelineKey := do
  let msaaKey ← Mesh2dPipelineKey.from_msaa_samples sampleCount
  let topologyKey ← Mesh2dPipelineKey.from_primitive_topology topology
  let flagKey := if attributeFlag = 1 then Mesh2dPipelineKey.VERTEX_TANGENTS
    else Mesh2dPipelineKey.NONE
  pure (Mesh2dPipelineKey.union (Mesh2dPipelineKey.union flagKey msaaKey) topologyKey)

/-- The composite decoding (the claim's `decode`): the accessor triple
`(contains(VERTEX_TANGENTS), msaa_samples, primitive_topology)` with the flag
read back as `0` or `1`. -/
def decodeKey (key : Mesh2dPipelineKey) : Nat × Nat × PrimitiveTopology :=
  ((if key.containsb Mesh2dPipelineKey.VERTEX_TANGENTS then 1 else 0),
    key.msaa_samples, key.primitive_topology)

/-- The external `wgpu::VertexFormat` values used by the 2d mesh pipeline. -/
inductive VertexFormat
  | Float32x2
  | Float32x3
  | Float32x4
deriving DecidableEq

/-- The external `wgpu::VertexAttribute`: format, byte offset into the vertex,
and the shader location it feeds. -/
structure VertexAttribute where
  format : VertexFormat
  offset : Nat
  shader_location : Nat
deriving DecidableEq

/-- The external `wgpu::VertexStepMode`. -/
inductive VertexStepMode
  | Vertex
  | Instance
deriving DecidableEq

/-- The external `VertexBufferLayout`: per-vertex stride, step mode and the
attribute list. -/
structure VertexBufferLayout where
  array_stride : Nat
  step_mode : VertexStepMode
  attributes : List VertexAttribute
deriving DecidableEq

/-- The external `wgpu::IndexFormat`. -/
inductive IndexFormat
  | Uint16
  | Uint32
deriving DecidableEq

/-- The external `wgpu::FrontFace`. -/
inductive FrontFace
  | Ccw
  | Cw
deriving DecidableEq

/-- The external `wgpu::Face` (culling). -/
inductive Face
  | Front
  | Back
deriving DecidableEq

/-- The external `wgpu::PolygonMode`. -/
inductive PolygonMode
  | Fill
  | Line
  | Point
deriving DecidableEq

/-- The vertex stage of a `RenderPipelineDescriptor`; the shader module itself
is an external precompiled program referenced by a stable handle, so only the
key-relevant fields (entry point, defines, buffer layouts) are carried. -/
structure VertexState where
  entry_point : String
  shader_defs : List String
  buffers : List VertexBufferLayout
deriving DecidableEq

/-- The fragment stage of a `RenderPipelineDescriptor` (shader handle and
color-target constants elided as external GPU state). -/
structure FragmentState where
  entry_point : String
  shader_defs : List String
deriving DecidableEq

/-- The external `wgpu::PrimitiveState` as filled in by `specialize`. -/
structure PrimitiveState where
  front_face : FrontFace
  cull_mode : Option Face
  unclipped_depth : Bool
  polygon_mode : PolygonMode
  conservative : Bool
  topology : PrimitiveTopology
  strip_index_format : Option IndexFormat
deriving DecidableEq

/-- The external `wgpu::MultisampleState`. -/
structure MultisampleState where
  count : Nat
  mask : Nat
  alpha_to_coverage_enabled : Bool
deriving DecidableEq

/-- The descriptor produced by `Mesh2dPipeline::specialize`.  Bind group
layouts are GPU objects; they are carried as opaque numeric identities. -/
structure RenderPipelineDescriptor where
  vertex : VertexState
  fragment : Option FragmentState
  layout : Option (List Nat)
  primitive : PrimitiveState
  depth_stencil : Option Unit
  multisample : MultisampleState
  label : Option String
deriving DecidableEq

/-- The external `bevy_render::texture::GpuImage`: GPU texture, view and
sampler carried as opaque numeric identities (the `size` field is render
metadata irrelevant to the claims). -/
structure GpuImage where
  texture : Nat
  texture_view : Nat
  sampler : Nat
deriving DecidableEq

/-- The `Mesh2dPipeline` resource: the two bind group layouts (opaque GPU
objects, numeric identities) and the dummy white 1x1 image created at
startup. -/
structure Mesh2dPipeline where
  view_layout : Nat
  mesh_layout : Nat
  dummy_white_gpu_image : GpuImage
deriving DecidableEq

/-- Method `Mesh2dPipeline::get_image_texture`: an absent handle resolves to
the dummy white texture/sampler pair; a present handle is looked up in the
GPU image registry (`RenderAssets<Image>`, modelled as a lookup from the
handle's id), propagating a missed lookup as `None` via the `?` operator. -/
def Mesh2dPipeline.get_image_texture (self : Mesh2dPipeline)
    (gpu_images : Nat → Option GpuImage) (handle_option : Option Nat) :
    Option (Nat × Nat) :=
  match handle_option with
  | some handle =>
    match gpu_images handle with
    | none => none
    | some gpu_image => some (gpu_image.texture_view, gpu_image.sampler)
  | none =>
    some (self.dummy_white_gpu_image.texture_view, self.dummy_white_gpu_image.sampler)

/-- Method `Mesh2dPipeline::specialize` (non-webgl build: the
`NO_ARRAY_TEXTURES_SUPPORT` define is feature-gated out).  Shader handles,
blend/color-target constants and the depth-stencil `None` are carried as far
as they are embeddable; the vertex buffer layout, shader defines, topology and
multisample count are computed from the key exactly as in the source. -/
def Mesh2dPipeline.specialize (self : Mesh2dPipeline) (key : Mesh2dPipelineKey) :
    RenderPipelineDescriptor :=
  let stride_and_attributes :
      Nat × List VertexAttribute :=
    if key.containsb Mesh2dPipelineKey.VERTEX_TANGENTS then
      (48,
        [⟨.Float32x3, 12, 0⟩,
          ⟨.Float32x3, 0, 1⟩,
          ⟨.Float32x2, 40, 2⟩,
          ⟨.Float32x4, 24, 3⟩])
    else
      (32,
        [⟨.Float32x3, 12, 0⟩,
          ⟨.Float32x3, 0, 1⟩,
          ⟨.Float32x2, 24, 2⟩])
  let shader_defs :=
    if key.containsb Mesh2dPipelineKey.VERTEX_TANGENTS then ["VERTEX_TANGENTS"]
    else []
  { vertex :=
      { entry_point := "vertex",
        shader_defs := shader_defs,
        buffers :=
          [{ array_stride := stride_and_attributes.1,
             step_mode := .Vertex,
             attributes := stride_and_attributes.2 }] },
    fragment := some { entry_point := "fragment", shader_defs := shader_defs },
    layout := some [self.view_layout, self.mesh_layout],
    primitive :=
      { front_face := .Ccw,
        cull_mode := some .Back,
        unclipped_depth := false,
        polygon_mode := .Fill,
        conservative := false,
        topology := key.primitive_topology,
        strip_index_format := none },
    depth_stencil := none,
    multisample :=
      { count := key.msaa_samples,
        mask := 18446744073709551615,
        alpha_to_coverage_enabled := false },
    label := some "transparent_mesh2d_pipeline" }

/-- The `Handle<Mesh>` asset handle: an id plus a strength bit
(`clone_weak` produces a weak handle with the same id; asset registry lookups
key on the id only). -/
structure Handle where
  id : Nat
  is_weak : Bool
deriving DecidableEq

/-- Method `Handle::clone_weak`. -/
def Handle.clone_weak (h : Handle) : Handle := ⟨h.id, true⟩

/-- The `Mesh2dHandle` component: a newtype around `Handle<Mesh>`. -/
structure Mesh2dHandle where
  handle : Handle
deriving DecidableEq

/-- The external `ComputedVisibility` component. -/
structure ComputedVisibility where
  is_visible : Bool
deriving DecidableEq

/-- The `MeshFlags` bit set (`NONE = 0`, `UNINITIALIZED = 0xFFFF`), carried as
its `u32` bits. -/
def MeshFlags.NONE : Nat := 0

/-- Flag `MeshFlags::UNINITIALIZED = 0xFFFF`. -/
def MeshFlags.UNINITIALIZED : Nat := 65535

/-- The `bitflags` method `MeshFlags::empty()`: the empty bit set. -/
def MeshFlags.empty : Nat := 0

/-- The `Mesh2dUniform` component: per-object uniform data.  The matrix type
is a parameter: `Mat4` and its `inverse`/`transpose` live in the external
`glam` crate, so the extraction is verified for any matrix type and
operations. -/
structure Mesh2dUniform (M : Type) where
  transform : M
  inverse_transpose_model : M
  flags : Nat
deriving DecidableEq

/-- System `extract_mesh2d`.  The simulation-world query is a list of
`(entity, computed_visibility, global_transform, mesh2d_handle)` rows; the
matrix type `M`, the external `GlobalTransform::compute_matrix` and the
external `Mat4::inverse`/`Mat4::transpose` are parameters.  Returns the batch
handed to `commands.insert_or_spawn_batch` together with the updated
`previous_len` local.  `Vec::with_capacity(*previous_len)` only pre-sizes the
allocation; per `Vec`'s contract capacity never changes push results, so
`previous_len` does not enter the batch computation. -/
def extract_mesh2d {M GT : Type} (compute_matrix : GT → M)
    (inverse : M → M) (transpose : M → M) (previous_len : Nat)
    (query : List (Nat × ComputedVisibility × GT × Mesh2dHandle)) :
    List (Nat × Mesh2dHandle × Mesh2dUniform M) × Nat :=
  let values := query.filterMap fun row =>
    let (entity, computed_visibility, gt, handle) := row
    if !computed_visibility.is_visible then none
    else
      let transform := compute_matrix gt
      some (entity,
        (Mesh2dHandle.mk handle.handle.clone_weak,
          { flags := MeshFlags.empty,
            transform := transform,
            inverse_transpose_model := transpose (inverse transform) }))
  (values, values.length)

/-- The external `bevy_render::mesh::GpuBufferInfo`: indexed meshes carry an
index buffer (opaque id), an index format and an index count; non-indexed
meshes carry a vertex count. -/
inductive GpuBufferInfo
  | Indexed (buffer : Nat) (index_format : IndexFormat) (count : Nat)
  | NonIndexed (vertex_count : Nat)
deriving DecidableEq

/-- The external `GpuMesh` render asset: vertex buffer (opaque id) plus its
buffer info. -/
structure GpuMesh where
  vertex_buffer : Nat
  buffer_info : GpuBufferInfo
deriving DecidableEq

/-- Commands recorded on a `TrackedRenderPass`, in order. -/
inductive RenderPassCmd
  | SetVertexBuffer (slot : Nat) (buffer : Nat)
  | SetIndexBuffer (buffer : Nat) (offset : Nat) (index_format : IndexFormat)
  | DrawIndexed (index_start : Nat) (index_end : Nat) (base_vertex : Int)
      (instance_start : Nat) (instance_end : Nat)
  | Draw (vertex_start : Nat) (vertex_end : Nat)
      (instance_start : Nat) (instance_end : Nat)
deriving DecidableEq

/-- The `RenderCommandResult` returned by render commands. -/
inductive RenderCommandResult
  | Success
  | Failure
deriving DecidableEq

/-- Whether a recorded pass command is a draw call. -/
def RenderPassCmd.isDraw : RenderPassCmd → Bool
  | .DrawIndexed _ _ _ _ _ => true
  | .Draw _ _ _ _ => true
  | _ => false

/-- The render command `DrawMesh2d::render` for one draw item: resolves the
item's `Mesh2dHandle` (the ECS query, modelled as a total lookup since the
render phase only lists items that carry the component), then the mesh in
`RenderAssets<Mesh>` (a lookup from handle id); on success records the vertex
buffer and one draw call shaped by the buffer-info variant, otherwise returns
`Failure` having recorded nothing. -/
def DrawMesh2d.render (meshes : Nat → Option GpuMesh)
    (mesh2d_query : Nat → Mesh2dHandle) (item : Nat) :
    RenderCommandResult × List RenderPassCmd :=
  let mesh_handle := (mesh2d_query item).handle
  match meshes mesh_handle.id with
  | some gpu_mesh =>
    (RenderCommandResult.Success,
      RenderPassCmd.SetVertexBuffer 0 gpu_mesh.vertex_buffer ::
        (match gpu_mesh.buffer_info with
          | .Indexed buffer index_format count =>
            [RenderPassCmd.SetIndexBuffer buffer 0 index_format,
              RenderPassCmd.DrawIndexed 0 count 0 0 1]
          | .NonIndexed vertex_count =>
            [RenderPassCmd.Draw 0 vertex_count 0 1]))
  | none => (RenderCommandResult.Failure, [])

/-- Modelled from the spec: the render-phase driver that runs the draw command
sequence is external to this source file; per the spec it runs the command
once per draw item, recording each item's outcome independently, a per-item
`Failure` skipping that item only. -/
def drawSequence (meshes : Nat → Option GpuMesh)
    (mesh2d_query : Nat → Mesh2dHandle) (items : List Nat) :
    List (RenderCommandResult × List RenderPassCmd) :=
  items.map (DrawMesh2d.render meshes mesh2d_query)

/-- Helper: over the 6-bit MSAA field every value yields a valid
`from_bits` key with the expected bit pattern and decode. -/
theorem from_bits_msaa_field (r : Nat) (hr : r < 64) :
    Mesh2dPipelineKey.from_bits (r <<< 26) = some ⟨r <<< 26⟩ ∧
      Mesh2dPipelineKey.msaa_samples ⟨r <<< 26⟩ = r + 1 := by
  have h : ∀ x : Fin 64,
      Mesh2dPipelineKey.from_bits (x.val <<< 26) = some ⟨x.val <<< 26⟩ ∧
        Mesh2dPipelineKey.msaa_samples ⟨x.val <<< 26⟩ = x.val + 1 := by decide
  exact h ⟨r, hr⟩

/-- C1: for every attribute flag in `{0,1}`, sample count in `[1,64]` and
defined `PrimitiveTopology`, encoding (via `VERTEX_TANGENTS`,
`from_msaa_samples` and `from_primitive_topology` unioned) succeeds and the
accessor triple decodes back exactly the original inputs. -/
theorem mesh2d_pipeline_key_roundtrip :
    ∀ (f : Fin 2) (s : Fin 64) (t : PrimitiveTopology),
      (encodeKey f.val (s.val + 1) t).map decodeKey = some (f.val, s.val + 1, t) := by
  decide

/-- C4: the key's bit layout is exact: `VERTEX_TANGENTS` is bit 0 with value
1, `from_msaa_samples` places `sampleCount - 1` at bits 26..31 as the pattern
`(sampleCount - 1) <<< 26`, `from_primitive_topology` places the ordinal at
bits 23..25 as `ordinal <<< 23`, and the three regions are pairwise
disjoint. -/
theorem mesh2d_pipeline_key_bit_layout :
    (∀ s : Fin 64,
        Mesh2dPipelineKey.from_msaa_samples (s.val + 1) = some ⟨s.val <<< 26⟩) ∧
      (∀ t : PrimitiveTopology,
        Mesh2dPipelineKey.from_primitive_topology t = some ⟨t.toU32 <<< 23⟩) ∧
      Mesh2dPipelineKey.VERTEX_TANGENTS.bits = 1 ∧
      Mesh2dPipelineKey.VERTEX_TANGENTS.bits &&& (63 <<< 26) = 0 ∧
      Mesh2dPipelineKey.VERTEX_TANGENTS.bits &&& (7 <<< 23) = 0 ∧
      (63 <<< 26) &&& (7 <<< 23) = 0 := by
  refine ⟨by decide, by decide, by decide, by decide, by decide, by decide⟩

/-- C3 counterexample: `from_msaa_samples 65` returns a key (the zero MSAA
field, i.e. 1 sample) even though 65 is outside `[1,64]`; no
`InvalidPipelineKey` failure occurs. -/
theorem from_msaa_samples_out_of_range_returns_key :
    Mesh2dPipelineKey.from_msaa_samples 65 = some ⟨0⟩ ∧
      ¬(1 ≤ 65 ∧ 65 ≤ 64) ∧
      (Mesh2dPipelineKey.from_msaa_samples 65).map Mesh2dPipelineKey.msaa_samples =
        some 1 := by
  refine ⟨by decide, by decide, by decide⟩

/-- C3 amended: encoding never fails. For any `u32` sample count at least 1,
`from_msaa_samples` silently masks `sampleCount - 1` to its low 6 bits,
returning the key whose pattern is `((sampleCount - 1) % 64) <<< 26` and which
decodes to `((sampleCount - 1) % 64) + 1` samples; `from_primitive_topology`
succeeds on every defined topology value. -/
theorem mesh2d_key_encoding_never_fails :
    (∀ s : Nat, 1 ≤ s → s < U32_SIZE →
        Mesh2dPipelineKey.from_msaa_samples s = some ⟨((s - 1) % 64) <<< 26⟩ ∧
          (Mesh2dPipelineKey.from_msaa_samples s).map Mesh2dPipelineKey.msaa_samples =
            some ((s - 1) % 64 + 1)) ∧
      (∀ t : PrimitiveTopology,
        (Mesh2dPipelineKey.from_primitive_topology t).isSome = true) := by
  constructor
  · intro s h1 h2
    have hw : u32_wrapping_sub s 1 = s - 1 := by
      unfold U32_SIZE at h2
      unfold u32_wrapping_sub U32_SIZE
      omega
    have hm : (s - 1) &&& 63 = (s - 1) % 64 := Nat.and_pow_two_sub_one_eq_mod (s - 1) 6
    have hr : (s - 1) % 64 < 64 := Nat.mod_lt _ (by norm_num)
    have hfield := from_bits_msaa_field ((s - 1) % 64) hr
    constructor
    · unfold Mesh2dPipelineKey.from_msaa_samples
      rw [show Mesh2dPipelineKey.MSAA_MASK_BITS = 63 from rfl,
        show Mesh2dPipelineKey.MSAA_SHIFT_BITS = 26 from rfl, hw, hm]
      exact hfield.1
    · unfold Mesh2dPipelineKey.from_msaa_samples
      rw [show Mesh2dPipelineKey.MSAA_MASK_BITS = 63 from rfl,
        show Mesh2dPipelineKey.MSAA_SHIFT_BITS = 26 from rfl, hw, hm, hfield.1]
      rw [show ∀ o : Mesh2dPipelineKey,
          Option.map Mesh2dPipelineKey.msaa_samples (some o) = some o.msaa_samples
        from fun _ => rfl]
      rw [hfield.2]
  · decide

/-- Witness for the amended C3 theorem at `sampleCount = 65`: the encoder
returns the key for `((65 - 1) % 64) + 1 = 1` sample. -/
theorem mesh2d_key_encoding_never_fails_witness :
    Mesh2dPipelineKey.from_msaa_samples 65 = some ⟨((65 - 1) % 64) <<< 26⟩ :=
  (mesh2d_key_encoding_never_fails.1 65 (by decide) (by decide)).1

/-- C7: decoding the topology field of a key whose 3-bit topology region holds
an ordinal matching none of the 5 defined `PrimitiveTopology` values returns
`PrimitiveTopology.default` (the accessor is total: it is a function on all
keys). -/
theorem primitive_topology_unrecognized_ordinal_defaults :
    ∀ k : Mesh2dPipelineKey,
      (∀ t : PrimitiveTopology,
        (k.bits >>> Mesh2dPipelineKey.PRIMITIVE_TOPOLOGY_SHIFT_BITS) &&&
          Mesh2dPipelineKey.PRIMITIVE_TOPOLOGY_MASK_BITS ≠ t.toU32) →
      k.primitive_topology = PrimitiveTopology.default := by
  intro k h
  simp only [Mesh2dPipelineKey.primitive_topology]
  split_ifs with h0 h1 h2 h3 h4
  · exact absurd h0 (h .PointList)
  · exact absurd h1 (h .LineList)
  · exact absurd h2 (h .LineStrip)
  · exact absurd h3 (h .TriangleList)
  · exact absurd h4 (h .TriangleStrip)
  · rfl

/-- Witness for C7 at the key holding ordinal 5 in the topology region: it
decodes to the default topology. -/
theorem primitive_topology_unrecognized_ordinal_defaults_witness :
    Mesh2dPipelineKey.primitive_topology ⟨5 <<< 23⟩ = PrimitiveTopology.default :=
  primitive_topology_unrecognized_ordinal_defaults ⟨5 <<< 23⟩ (by decide)

/-- C10: over every key (any bit pattern, produced by the encoders or not) the
decode accessors are total and range-bounded: `msaa_samples` is in `[1,64]`
and `primitive_topology` is one of the 5 defined values. -/
theorem mesh2d_key_decoders_total_and_bounded :
    ∀ k : Mesh2dPipelineKey,
      1 ≤ k.msaa_samples ∧ k.msaa_samples ≤ 64 ∧
        (k.primitive_topology = .PointList ∨ k.primitive_topology = .LineList ∨
          k.primitive_topology = .LineStrip ∨ k.primitive_topology = .TriangleList ∨
          k.primitive_topology = .TriangleStrip) := by
  intro k
  refine ⟨Nat.le_add_left 1 _, ?_, ?_⟩
  · unfold Mesh2dPipelineKey.msaa_samples
    have : (k.bits >>> Mesh2dPipelineKey.MSAA_SHIFT_BITS) &&&
        Mesh2dPipelineKey.MSAA_MASK_BITS ≤ 63 := Nat.and_le_right
    omega
  · simp only [Mesh2dPipelineKey.primitive_topology]
    split_ifs <;> simp [PrimitiveTopology.default]

/-- C2: in `Mesh2dPipeline::specialize` the vertex buffer layout depends
solely on whether the key contains the `VERTEX_TANGENTS` bit: with the bit it
is stride 48 with position (offset 12, Float32x3, location 0), normal
(offset 0, Float32x3, location 1), uv (offset 40, Float32x2, location 2),
tangent (offset 24, Float32x4, location 3); without it, stride 32 with
position (offset 12, location 0), normal (offset 0, location 1), uv
(offset 24, location 2) — the shader-facing order is fixed and non-alphabetic
over alphabetically-sorted storage offsets, and no other input (in particular
not the pipeline resource) enters the layout. -/
theorem mesh2d_specialize_vertex_layout :
    ∀ (p : Mesh2dPipeline) (k : Mesh2dPipelineKey),
      (p.specialize k).vertex.buffers =
        [{ array_stride :=
             if k.containsb Mesh2dPipelineKey.VERTEX_TANGENTS then 48 else 32,
           step_mode := .Vertex,
           attributes :=
             if k.containsb Mesh2dPipelineKey.VERTEX_TANGENTS then
               [⟨.Float32x3, 12, 0⟩, ⟨.Float32x3, 0, 1⟩,
                 ⟨.Float32x2, 40, 2⟩, ⟨.Float32x4, 24, 3⟩]
             else
               [⟨.Float32x3, 12, 0⟩, ⟨.Float32x3, 0, 1⟩,
                 ⟨.Float32x2, 24, 2⟩] }] := by
  intro p k
  cases hb : k.containsb Mesh2dPipelineKey.VERTEX_TANGENTS <;>
    simp [Mesh2dPipeline.specialize, hb]

/-- C8: `get_image_texture` with an absent handle always returns the dummy
white texture/sampler pair; with a present handle that does not resolve in
the GPU image registry it returns `none` (never the dummy pair); with a
present, resolvable handle it returns that image's view and sampler. -/
theorem get_image_texture_cases :
    ∀ (p : Mesh2dPipeline) (gpu_images : Nat → Option GpuImage),
      (p.get_image_texture gpu_images none =
        some (p.dummy_white_gpu_image.texture_view,
          p.dummy_white_gpu_image.sampler)) ∧
      (∀ h : Nat, gpu_images h = none →
        p.get_image_texture gpu_images (some h) = none) ∧
      (∀ (h : Nat) (g : GpuImage), gpu_images h = some g →
        p.get_image_texture gpu_images (some h) =
          some (g.texture_view, g.sampler)) := by
  intro p gpu_images
  refine ⟨rfl, ?_, ?_⟩
  · intro h hnone
    simp [Mesh2dPipeline.get_image_texture, hnone]
  · intro h g hsome
    simp [Mesh2dPipeline.get_image_texture, hsome]

/-- Witness for C8: a concrete pipeline whose dummy image has view 3 and
sampler 4, a registry resolving handle 7 to an image with view 9 and
sampler 10 and nothing else; the three outcomes are as stated. -/
theorem get_image_texture_cases_witness :
    (Mesh2dPipeline.get_image_texture ⟨0, 1, ⟨2, 3, 4⟩⟩
        (fun h => if h = 7 then some ⟨8, 9, 10⟩ else none) none = some (3, 4)) ∧
      (Mesh2dPipeline.get_image_texture ⟨0, 1, ⟨2, 3, 4⟩⟩
        (fun h => if h = 7 then some ⟨8, 9, 10⟩ else none) (some 5) = none) ∧
      (Mesh2dPipeline.get_image_texture ⟨0, 1, ⟨2, 3, 4⟩⟩
        (fun h => if h = 7 then some ⟨8, 9, 10⟩ else none) (some 7) =
          some (9, 10)) :=
  ⟨(get_image_texture_cases ⟨0, 1, ⟨2, 3, 4⟩⟩
      (fun h => if h = 7 then some ⟨8, 9, 10⟩ else none)).1,
    (get_image_texture_cases ⟨0, 1, ⟨2, 3, 4⟩⟩
      (fun h => if h = 7 then some ⟨8, 9, 10⟩ else none)).2.1 5 rfl,
    (get_image_texture_cases ⟨0, 1, ⟨2, 3, 4⟩⟩
      (fun h => if h = 7 then some ⟨8, 9, 10⟩ else none)).2.2 7 ⟨8, 9, 10⟩ rfl⟩

/-- C6: the batch produced by `extract_mesh2d` contains a record for an
entity exactly when some query row for that entity is visible, and that
record stages a weak copy of the mesh handle together with a uniform whose
`transform` is the row's computed world matrix, whose
`inverse_transpose_model` is the transpose of its inverse, and whose `flags`
are zero; invisible rows contribute nothing. -/
theorem extract_mesh2d_output_characterization :
    ∀ (M GT : Type) (compute_matrix : GT → M) (inverse transpose : M → M)
      (previous_len : Nat)
      (query : List (Nat × ComputedVisibility × GT × Mesh2dHandle))
      (entity : Nat) (rec : Mesh2dHandle × Mesh2dUniform M),
      ((entity, rec) ∈
          (extract_mesh2d compute_matrix inverse transpose previous_len query).1 ↔
        ∃ (cv : ComputedVisibility) (gt : GT) (h : Mesh2dHandle),
          (entity, cv, gt, h) ∈ query ∧ cv.is_visible = true ∧
            rec = (Mesh2dHandle.mk h.handle.clone_weak,
              { flags := 0,
                transform := compute_matrix gt,
                inverse_transpose_model :=
                  transpose (inverse (compute_matrix gt)) })) := by
  intro M GT compute_matrix inverse transpose previous_len query entity rec
  constructor
  · intro hmem
    simp only [extract_mesh2d, List.mem_filterMap] at hmem
    obtain ⟨⟨e, cv, gt, h⟩, hrow, heq⟩ := hmem
    cases hb : cv.is_visible
    · rw [hb] at heq
      simp at heq
    · rw [hb] at heq
      simp only [Bool.not_true, Bool.false_eq_true, if_false, Option.some.injEq] at heq
      obtain ⟨he, hrec⟩ := Prod.mk.injEq .. ▸ heq
      subst he
      exact ⟨cv, gt, h, hrow, hb, hrec.symm⟩
  · rintro ⟨cv, gt, h, hrow, hv, hrec⟩
    refine List.mem_filterMap.mpr ⟨(entity, cv, gt, h), hrow, ?_⟩
    simp only [hv, Bool.not_true, Bool.false_eq_true, if_false, Option.some.injEq]
    rw [hrec]
    rfl

/-- C9: the extraction batch is independent of the remembered previous-frame
length used to pre-size the staging vector: any two values of the
`previous_len` local (any under- or over-estimate, including zero) give
identical outputs on the same query. -/
theorem extract_mesh2d_previous_len_independent :
    ∀ (M GT : Type) (compute_matrix : GT → M) (inverse transpose : M → M)
      (len1 len2 : Nat)
      (query : List (Nat × ComputedVisibility × GT × Mesh2dHandle)),
      extract_mesh2d compute_matrix inverse transpose len1 query =
        extract_mesh2d compute_matrix inverse transpose len2 query := by
  intro M GT compute_matrix inverse transpose len1 len2 query
  rfl

/-- C5: for a draw item whose mesh handle resolves, `DrawMesh2d` records the
vertex buffer and exactly one draw call — indexed over `[0, count)` with base
vertex 0 and instances `[0,1)` after binding the index buffer when the buffer
info is `Indexed`, non-indexed over `[0, vertex_count)` with instances
`[0,1)` when `NonIndexed` — and returns `Success`; when the handle does not
resolve it returns `Failure` recording nothing, and in a sequence of items
each item's outcome is its own `render` result regardless of the other
items. -/
theorem drawMesh2d_command_cases :
    ∀ (meshes : Nat → Option GpuMesh) (mesh2d_query : Nat → Mesh2dHandle)
      (item : Nat),
      (∀ vb buffer index_format count,
        meshes (mesh2d_query item).handle.id =
            some ⟨vb, .Indexed buffer index_format count⟩ →
          DrawMesh2d.render meshes mesh2d_query item =
            (.Success,
              [.SetVertexBuffer 0 vb,
                .SetIndexBuffer buffer 0 index_format,
                .DrawIndexed 0 count 0 0 1])) ∧
      (∀ vb vertex_count,
        meshes (mesh2d_query item).handle.id = some ⟨vb, .NonIndexed vertex_count⟩ →
          DrawMesh2d.render meshes mesh2d_query item =
            (.Success, [.SetVertexBuffer 0 vb, .Draw 0 vertex_count 0 1])) ∧
      (∀ gpu_mesh : GpuMesh,
        meshes (mesh2d_query item).handle.id = some gpu_mesh →
          ((DrawMesh2d.render meshes mesh2d_query item).2.countP
            (fun c => c.isDraw)) = 1) ∧
      (meshes (mesh2d_query item).handle.id = none →
        DrawMesh2d.render meshes mesh2d_query item = (.Failure, [])) ∧
      (∀ (items : List Nat) (it : Nat), it ∈ items →
        DrawMesh2d.render meshes mesh2d_query it ∈
          drawSequence meshes mesh2d_query items) := by
  intro meshes mesh2d_query item
  refine ⟨?_, ?_, ?_, ?_, ?_⟩
  · intro vb buffer index_format count hres
    simp [DrawMesh2d.render, hres]
  · intro vb vertex_count hres
    simp [DrawMesh2d.render, hres]
  · rintro ⟨vb, buffer_info⟩ hres
    cases buffer_info <;>
      simp [DrawMesh2d.render, hres, RenderPassCmd.isDraw, List.countP_cons]
  · intro hres
    simp [DrawMesh2d.render, hres]
  · intro items it hmem
    exact List.mem_map_of_mem _ hmem

/-- Witness for C5: with a registry resolving every handle to an indexed mesh
of 36 indices on vertex buffer 7, the command for item 0 is the indexed draw
triple. -/
theorem drawMesh2d_command_cases_witness :
    DrawMesh2d.render (fun _ => some ⟨7, .Indexed 3 .Uint32 36⟩)
        (fun _ => ⟨⟨5, false⟩⟩) 0 =
      (.Success,
        [.SetVertexBuffer 0 7, .SetIndexBuffer 3 0 .Uint32,
          .DrawIndexed 0 36 0 0 1]) :=
  (drawMesh2d_command_cases (fun _ => some ⟨7, .Indexed 3 .Uint32 36⟩)
    (fun _ => ⟨⟨5, false⟩⟩) 0).1 7 3 .Uint32 36 rfl

/-- Witness for C6: a one-row query with a visible entity 0 at a transform
that computes to matrix 77 (over `M = GT = Nat` with identity inverse and
transpose) produces exactly the record with the weak handle copy, transform
77, inverse-transpose 77 and zero flags. -/
theorem extract_mesh2d_output_characterization_witness :
    (0, (Mesh2dHandle.mk ⟨5, true⟩,
        ({ transform := 77, inverse_transpose_model := 77, flags := 0 } :
          Mesh2dUniform Nat))) ∈
      (extract_mesh2d (fun _ : Nat => (77 : Nat)) id id 0
        [(0, ⟨true⟩, 3, Mesh2dHandle.mk ⟨5, false⟩)]).1 :=
  (extract_mesh2d_output_characterization Nat Nat (fun _ => 77) id id 0
      [(0, ⟨true⟩, 3, Mesh2dHandle.mk ⟨5, false⟩)] 0 _).mpr
    ⟨⟨true⟩, 3, Mesh2dHandle.mk ⟨5, false⟩, List.mem_singleton.mpr rfl, rfl, rfl⟩
